import Mathlib

/-!
Verification of the `agentic_content_creation` repository.

The repository has two source files:
* `env_helper.py` — an environment loader built on `python-dotenv`:
  `load_env()` calls `load_dotenv(find_dotenv())`, which parses the local
  `.env` file into a key–value dictionary and writes each binding into the
  process environment unless the key is already present (dotenv's default
  `override=False`); `get_value(key)` calls `load_env()` and then returns
  `os.getenv(key)` (`None` when unset).
* `crew.py` — a declarative CrewAI class `AgenticContentCreation` whose
  class body resolves `SERPER_API_KEY` via `get_value`, prints it, re-exports
  it with `os.environ["SERPER_API_KEY"] = get_value('SERPER_API_KEY')`,
  instantiates three tool wrappers, and declares four agents, four tasks and
  a sequential crew.

The embedding models the process environment and the parsed `.env` file as
association lists `List (String × String)` (first binding wins on lookup,
matching a map abstraction), Python's `None` as `Option.none`, and the
`TypeError` raised by `os.environ[k] = None` as an `Except` error.
-/

namespace AgenticContent

/-- The process environment (`os.environ`) and the parsed `.env` file are both
finite string-to-string maps, represented as association lists. -/
abbrev Env := List (String × String)

/-- `os.getenv key`: the first binding of `key`, or `none` when unset. -/
def getenv : Env → String → Option String
  | [], _ => none
  | (k', v) :: rest, k => if k' = k then some v else getenv rest k

/-- One step of dotenv's `set_as_environment_variables` with the default
`override=False`: bind `k` to `v` only when `k` is not already present. -/
def setIfAbsent (env : Env) (k v : String) : Env :=
  if (getenv env k).isSome then env else env ++ [(k, v)]

/-- `load_dotenv(find_dotenv())`: write every binding of the parsed `.env`
file into the environment, without overriding existing keys. -/
def load_dotenv (env file : Env) : Env :=
  file.foldl (fun e p => setIfAbsent e p.1 p.2) env

/-- `env_helper.load_env`: `_ = load_dotenv(find_dotenv())`. -/
def load_env (env file : Env) : Env :=
  load_dotenv env file

/-- `env_helper.get_value(key)`: run `load_env()` (mutating the process
environment), then return `os.getenv(key)`.  The returned pair is the
Python return value together with the resulting process environment. -/
def get_value (env file : Env) (key : String) : Option String × Env :=
  let env' := load_env env file
  (getenv env' key, env')

/-- `os.environ[k] = v` for a string `v`: overwrite or append the binding. -/
def environSet (env : Env) (k v : String) : Env :=
  if (getenv env k).isSome then
    env.map (fun p => if p.1 = k then (p.1, v) else p)
  else env ++ [(k, v)]

@[simp] theorem getenv_nil (k : String) : getenv [] k = none := rfl

@[simp] theorem getenv_cons (k' v k : String) (rest : Env) :
    getenv ((k', v) :: rest) k = if k' = k then some v else getenv rest k := rfl

theorem getenv_append (l₁ l₂ : Env) (k : String) :
    getenv (l₁ ++ l₂) k = (getenv l₁ k).orElse (fun _ => getenv l₂ k) := by
  induction l₁ with
  | nil => simp [Option.orElse]
  | cons p rest ih =>
    obtain ⟨k', v⟩ := p
    by_cases h : k' = k <;> simp [h, ih, Option.orElse]

theorem getenv_setIfAbsent_ne (env : Env) (k' v k : String) (h : k' ≠ k) :
    getenv (setIfAbsent env k' v) k = getenv env k := by
  unfold setIfAbsent
  split
  · rfl
  · rw [getenv_append]
    cases hk : getenv env k <;> simp [Option.orElse, h]

theorem getenv_setIfAbsent_self_absent (env : Env) (k v : String)
    (h : getenv env k = none) :
    getenv (setIfAbsent env k v) k = some v := by
  unfold setIfAbsent
  rw [h]
  simp [getenv_append, h, Option.orElse]

theorem getenv_setIfAbsent_of_some (env : Env) (k' v' k v : String)
    (h : getenv env k = some v) :
    getenv (setIfAbsent env k' v' ) k = some v := by
  unfold setIfAbsent
  split
  · exact h
  · rw [getenv_append, h]; rfl

/-- The fundamental lookup law of `load_dotenv` with `override=False`:
the environment's binding wins, and the file is consulted only for keys the
environment lacks. -/
theorem getenv_load_dotenv (file : Env) :
    ∀ (env : Env) (k : String),
      getenv (load_dotenv env file) k = (getenv env k).orElse (fun _ => getenv file k) := by
  induction file with
  | nil =>
    intro env k
    cases h : getenv env k <;> simp [load_dotenv, h, Option.orElse]
  | cons p rest ih =>
    intro env k
    obtain ⟨k', v'⟩ := p
    show getenv (load_dotenv (setIfAbsent env k' v' ) rest) k = _
    rw [ih]
    by_cases hk : k' = k
    · cases h : getenv env k with
      | some v =>
        rw [getenv_setIfAbsent_of_some env k' v' k v h]
        simp [hk, Option.orElse]
      | none =>
        subst hk
        rw [getenv_setIfAbsent_self_absent env k' v' h]
        simp [h, Option.orElse]
    · rw [getenv_setIfAbsent_ne env k' v' k hk]
      simp [hk]

/-! ## The `crew.py` class body

Evaluating the class body of `AgenticContentCreation` (lines 30–36) performs,
in order:
1. `serperApiKey = get_value('SERPER_API_KEY')`
2. `print(f"*****SERPER_API_KEY: {serperApiKey}")`
3. `os.environ["SERPER_API_KEY"] = get_value('SERPER_API_KEY')` — CPython's
   `os.environ.__setitem__` raises `TypeError: str expected, not NoneType`
   when the value is `None`.
4. instantiates the three tool wrappers `SerperDevTool()`,
   `ScrapeWebsiteTool()`, `WebsiteSearchTool()`.
-/

/-- The Python exceptions this code can raise. -/
inductive PyError where
  | typeError (msg : String)
deriving DecidableEq

/-- How Python's f-string renders an `os.getenv` result (`None` prints as
`"None"`). -/
def pyRepr : Option String → String
  | some s => s
  | none => "None"

/-- Outcome of evaluating the `AgenticContentCreation` class body: the lines
printed to stdout, and either the final process environment or the exception
that escaped. -/
structure ClassBodyResult where
  stdout : List String
  result : Except PyError Env

/-- Evaluation of the `AgenticContentCreation` class body (crew.py lines
30–36) over an initial process environment and the parsed `.env` file. -/
def classBody (env file : Env) : ClassBodyResult :=
  let (serperApiKey, env1) := get_value env file "SERPER_API_KEY"
  let line := "*****SERPER_API_KEY: " ++ pyRepr serperApiKey
  let (v2, env2) := get_value env1 file "SERPER_API_KEY"
  { stdout := [line]
    result :=
      match v2 with
      | none => .error (.typeError "str expected, not NoneType")
      | some s => .ok (environSet env2 "SERPER_API_KEY" s) }

/-! ## Tools, agents, tasks and the crew -/

/-- The three tool wrapper instances created in the class body (lines 34–36):
`serper = SerperDevTool()`, `scraper = ScrapeWebsiteTool()`,
`searcher = WebsiteSearchTool()`. -/
inductive ToolInstance where
  | serper
  | scraper
  | searcher
deriving DecidableEq

/-- The list of tool wrappers the class body instantiates, in order. -/
def instantiatedTools : List ToolInstance :=
  [.serper, .scraper, .searcher]

/-- An agent declaration: the key into `config/agents.yaml` and the `tools`
keyword argument (empty list when the keyword is omitted). -/
structure Agent where
  config : String
  tools : List ToolInstance
deriving DecidableEq

/-- The declared shape of a pydantic model, as far as the spec's schema claims
need: `str` fields, `List[...]` fields, and nested models with named fields. -/
inductive PyType where
  | str : PyType
  | list : PyType → PyType
  | model : String → List (String × PyType) → PyType

/-- `class SocialMediaPost(BaseModel)`: a `platform` string and a `content`
string. -/
def SocialMediaPost : PyType :=
  .model "SocialMediaPost" [("platform", .str), ("content", .str)]

/-- `class ContentOutput(BaseModel)`: an `article` string and a list
`social_media_posts` of `SocialMediaPost`. -/
def ContentOutput : PyType :=
  .model "ContentOutput" [("article", .str), ("social_media_posts", .list SocialMediaPost)]

/-- A task declaration: the key into `config/tasks.yaml`, the optional
`context` keyword (a list of task names; `none` when the keyword is absent),
the optional `output_pydantic` schema and the optional `output_file`. -/
structure Task where
  config : String
  context : Option (List String)
  output_pydantic : Option PyType
  output_file : Option String

/-- `@agent market_news_monitor_agent`: tools `[self.serper, self.scraper]`. -/
def market_news_monitor_agent : Agent :=
  ⟨"market_news_monitor_agent", [.serper, .scraper]⟩

/-- `@agent data_analyst_agent`: tools `[self.serper, self.searcher]`. -/
def data_analyst_agent : Agent :=
  ⟨"data_analyst_agent", [.serper, .searcher]⟩

/-- `@agent content_creator_agent`: tools `[self.serper, self.scraper]`. -/
def content_creator_agent : Agent :=
  ⟨"content_creator_agent", [.serper, .scraper]⟩

/-- `@agent quality_assurance_agent`: constructed from its config only, with
no `tools` keyword. -/
def quality_assurance_agent : Agent :=
  ⟨"quality_assurance_agent", []⟩

/-- `@task monitor_market_news_task`: config only. -/
def monitor_market_news_task : Task :=
  ⟨"monitor_market_news_task", none, none, none⟩

/-- `@task analyze_market_data_task`: config only. -/
def analyze_market_data_task : Task :=
  ⟨"analyze_market_data_task", none, none, none⟩

/-- `@task create_content_task`: config only; the
`context=[self.monitor_market_news_task, self.analyze_market_data_task]`
line is commented out in the source, so no context is declared. -/
def create_content_task : Task :=
  ⟨"create_content_task", none, none, none⟩

/-- `@task quality_assurance_task`: declares `output_pydantic=ContentOutput`
and `output_file='report.md'`. -/
def quality_assurance_task : Task :=
  ⟨"quality_assurance_task", none, some ContentOutput, some "report.md"⟩

/-- The execution process passed to `Crew(...)`. -/
inductive Process where
  | sequential
  | hierarchical
deriving DecidableEq

/-- The assembled `Crew` object. -/
structure Crew where
  agents : List Agent
  tasks : List Task
  process : Process
  verbose : Bool

/-- `self.agents` as collected by the `@CrewBase` decorator: the `@agent`
methods in declaration order. -/
def crewAgents : List Agent :=
  [market_news_monitor_agent, data_analyst_agent, content_creator_agent,
   quality_assurance_agent]

/-- `self.tasks` as collected by the `@CrewBase` decorator: the `@task`
methods in declaration order. -/
def crewTasks : List Task :=
  [monitor_market_news_task, analyze_market_data_task, create_content_task,
   quality_assurance_task]

/-- `@crew crew`: `Crew(agents=self.agents, tasks=self.tasks,
process=Process.sequential, verbose=True)`. -/
def crew : Crew :=
  ⟨crewAgents, crewTasks, .sequential, true⟩

/-! ## Supporting lemmas -/

theorem getenv_isSome_of_mem (file : Env) (p : String × String) (hp : p ∈ file) :
    (getenv file p.1).isSome := by
  induction file with
  | nil => cases hp
  | cons q rest ih =>
    obtain ⟨k', v⟩ := q
    by_cases h : k' = p.1
    · simp [h]
    · rcases List.mem_cons.mp hp with h1 | h1
      · rw [h1] at h; exact absurd rfl h
      · simp [h, ih h1]

theorem load_dotenv_of_all_present (f : Env) :
    ∀ E : Env, (∀ p ∈ f, (getenv E p.1).isSome) → load_dotenv E f = E := by
  induction f with
  | nil => intro E _; rfl
  | cons p rest ih =>
    intro E h
    show load_dotenv (setIfAbsent E p.1 p.2) rest = E
    have hp : (getenv E p.1).isSome := h p (List.mem_cons_self p rest)
    have hE : setIfAbsent E p.1 p.2 = E := by unfold setIfAbsent; simp [hp]
    rw [hE]
    exact ih E (fun q hq => h q (List.mem_cons_of_mem _ hq))

/-- A second `load_dotenv` of the same file changes nothing: after the first
load every key of the file is present in the environment. -/
theorem load_dotenv_idem (env file : Env) :
    load_dotenv (load_dotenv env file) file = load_dotenv env file := by
  apply load_dotenv_of_all_present
  intro p hp
  rw [getenv_load_dotenv]
  cases he : getenv env p.1 with
  | some v => simp [Option.orElse]
  | none =>
    have := getenv_isSome_of_mem file p hp
    cases hf : getenv file p.1 with
    | none => rw [hf] at this; cases this
    | some v => simp [Option.orElse, hf]

theorem getenv_map_replace (env : Env) (k' v k : String) (h : k' ≠ k) :
    getenv (env.map (fun p => if p.1 = k' then (p.1, v) else p)) k = getenv env k := by
  induction env with
  | nil => rfl
  | cons p rest ih =>
    obtain ⟨a, b⟩ := p
    by_cases ha : a = k'
    · subst ha
      simp [h, ih]
    · by_cases hk : a = k <;> simp [ha, hk, ih, Ne.symm h]

theorem getenv_environSet_ne (env : Env) (k' v k : String) (h : k' ≠ k) :
    getenv (environSet env k' v) k = getenv env k := by
  unfold environSet
  split
  · exact getenv_map_replace env k' v k h
  · rw [getenv_append]
    cases he : getenv env k <;> simp [Option.orElse, h]

theorem string_append_left_cancel (p s t : String) (h : p ++ s = p ++ t) : s = t := by
  have hd := congrArg String.data h
  rw [String.data_append, String.data_append] at hd
  have h2 : s.data = t.data := List.append_cancel_left hd
  cases s; cases t; simp_all

/-! ## Claim theorems -/

/-- C1: the Crew returned by `AgenticContentCreation.crew` contains exactly
four agents and exactly four tasks, the tasks in their fixed declaration
order (`monitor_market_news_task`, `analyze_market_data_task`,
`create_content_task`, `quality_assurance_task`), executed as a sequential
process; no task declares a `context` dependency, so the order is the
declaration order and not inferred from data dependencies. -/
theorem crew_four_agents_four_tasks_sequential :
    crew.agents.length = 4 ∧
    crew.tasks.length = 4 ∧
    crew.tasks = [monitor_market_news_task, analyze_market_data_task,
      create_content_task, quality_assurance_task] ∧
    crew.process = Process.sequential ∧
    crew.tasks.all (fun t => t.context.isNone) = true :=
  ⟨rfl, rfl, rfl, rfl, rfl⟩

/-- C3: for every key that is set — in the process environment, or in the
`.env` file when the process environment lacks it — `get_value` returns
exactly the string value bound to that key, unmodified. -/
theorem get_value_returns_bound_value (env file : Env) (key v : String) :
    (getenv env key = some v → (get_value env file key).1 = some v) ∧
    (getenv env key = none → getenv file key = some v →
      (get_value env file key).1 = some v) := by
  constructor
  · intro h
    simp [get_value, load_env, getenv_load_dotenv, h, Option.orElse]
  · intro h1 h2
    simp [get_value, load_env, getenv_load_dotenv, h1, h2, Option.orElse]

theorem get_value_returns_bound_value_witness :
    (get_value [("HOME", "/root")] [] "HOME").1 = some "/root" ∧
    (get_value [] [("SERPER_API_KEY", "k1")] "SERPER_API_KEY").1 = some "k1" :=
  ⟨(get_value_returns_bound_value [("HOME", "/root")] [] "HOME" "/root").1 rfl,
   (get_value_returns_bound_value [] [("SERPER_API_KEY", "k1")]
      "SERPER_API_KEY" "k1").2 rfl rfl⟩

/-- C4: for every key unset in both the process environment and the `.env`
file, `get_value` returns `none` (Python's `None`); `get_value` is a total
function into `Option String`, so it cannot raise. -/
theorem get_value_unset_returns_none (env file : Env) (key : String)
    (h1 : getenv env key = none) (h2 : getenv file key = none) :
    (get_value env file key).1 = none := by
  simp [get_value, load_env, getenv_load_dotenv, h1, h2, Option.orElse]

theorem get_value_unset_returns_none_witness :
    (get_value [] [] "SERPER_API_KEY").1 = none :=
  get_value_unset_returns_none [] [] "SERPER_API_KEY" rfl rfl

/-- C5: the final task of the pipeline is `quality_assurance_task`; it
declares the structured output schema `ContentOutput` — an `article` string
plus a list `social_media_posts` of posts each holding a `platform` string
and a `content` string — and declares the output file `report.md`. -/
theorem quality_assurance_task_output_declaration :
    crew.tasks.getLast? = some quality_assurance_task ∧
    quality_assurance_task.output_pydantic =
      some (.model "ContentOutput"
        [("article", .str),
         ("social_media_posts", .list (.model "SocialMediaPost"
            [("platform", .str), ("content", .str)]))]) ∧
    quality_assurance_task.output_file = some "report.md" :=
  ⟨rfl, rfl, rfl⟩

/-- C6: the class body instantiates exactly three distinct tool wrappers
(web search `serper`, page scrape `scraper`, site-restricted search
`searcher`) and registers four agents, each bound to a subset of those three
instances, with `market_news_monitor_agent` holding `{serper, scraper}`,
`data_analyst_agent` holding `{serper, searcher}` and `content_creator_agent`
holding `{serper, scraper}`. -/
theorem three_tools_four_agents_bindings :
    instantiatedTools.length = 3 ∧
    instantiatedTools.Nodup ∧
    crew.agents.length = 4 ∧
    market_news_monitor_agent.tools = [.serper, .scraper] ∧
    data_analyst_agent.tools = [.serper, .searcher] ∧
    content_creator_agent.tools = [.serper, .scraper] ∧
    crew.agents.all (fun a => a.tools.all (fun t => instantiatedTools.contains t)) = true := by
  refine ⟨rfl, ?_, rfl, rfl, rfl, rfl, ?_⟩ <;> decide

/-- C8: `get_value` is idempotent with no caching: each call recomputes its
result by re-loading the `.env` file into the current environment, and a
second call made after the first — with the file unchanged and the process
environment as the first call left it — returns the same value and leaves
the environment unchanged. -/
theorem get_value_idempotent_no_cache (env file : Env) (key : String) :
    get_value env file key = (getenv (load_dotenv env file) key, load_dotenv env file) ∧
    get_value (get_value env file key).2 file key = get_value env file key := by
  refine ⟨rfl, ?_⟩
  show get_value (load_dotenv env file) file key = _
  simp only [get_value, load_env, load_dotenv_idem]

/-- C10: `quality_assurance_agent` is constructed with no tools at all,
unlike the other three agents, which each carry exactly two tools. -/
theorem quality_assurance_agent_has_no_tools :
    quality_assurance_agent.tools = [] ∧
    market_news_monitor_agent.tools.length = 2 ∧
    data_analyst_agent.tools.length = 2 ∧
    content_creator_agent.tools.length = 2 :=
  ⟨rfl, rfl, rfl, rfl⟩

/-- C2 counterexample: with `SERPER_API_KEY` unset in both the `.env` file
and the process environment, evaluating the `AgenticContentCreation` class
body raises a `TypeError` at
`os.environ["SERPER_API_KEY"] = get_value('SERPER_API_KEY')`, because
CPython's `os.environ.__setitem__` rejects the `None` returned by
`get_value` — refuting the claim that no exception is raised anywhere this
code consumes a configuration value. -/
theorem classBody_raises_when_key_unset :
    (classBody [] []).result =
      Except.error (PyError.typeError "str expected, not NoneType") := rfl

/-- C2 (amended): when `SERPER_API_KEY` is unset in both the `.env` file and
the process environment, `get_value` itself returns the missing value as
`None` without raising, but evaluating the crew class body then raises a
`TypeError` when re-exporting that `None` into the process environment. -/
theorem missing_key_none_then_reexport_raises (env file : Env)
    (h1 : getenv env "SERPER_API_KEY" = none)
    (h2 : getenv file "SERPER_API_KEY" = none) :
    (get_value env file "SERPER_API_KEY").1 = none ∧
    (classBody env file).result =
      Except.error (PyError.typeError "str expected, not NoneType") := by
  have henv1 : getenv (load_dotenv env file) "SERPER_API_KEY" = none := by
    simp [getenv_load_dotenv, h1, h2, Option.orElse]
  have henv2 : getenv (load_dotenv (load_dotenv env file) file) "SERPER_API_KEY" = none := by
    simp [getenv_load_dotenv, henv1, h2, Option.orElse]
  constructor
  · simp [get_value, load_env, henv1]
  · simp [classBody, get_value, load_env, henv1, henv2]

theorem missing_key_none_then_reexport_raises_witness :
    (get_value [] [] "SERPER_API_KEY").1 = none ∧
    (classBody [] []).result =
      Except.error (PyError.typeError "str expected, not NoneType") :=
  missing_key_none_then_reexport_raises [] [] rfl rfl

/-- C7 counterexample: the class body's environment mutation is not limited
to `SERPER_API_KEY`: loading the `.env` file writes every file key absent
from the process environment.  With an empty initial environment and a file
binding `OTHER_VAR`, the run succeeds and leaves `OTHER_VAR` set, though it
was unset before. -/
theorem classBody_mutates_other_env_vars :
    getenv [] "OTHER_VAR" = none ∧
    (match (classBody [] [("OTHER_VAR", "x"), ("SERPER_API_KEY", "k1")]).result with
      | Except.ok e => getenv e "OTHER_VAR"
      | Except.error _ => none) = some "x" :=
  ⟨rfl, rfl⟩

/-- C7 (amended): the only explicit assignment the Crew Assembler makes to
the process environment is re-exporting `SERPER_API_KEY` under its same
name, but resolving it through `get_value` additionally merges every `.env`
file binding whose key the environment lacks; every variable that is neither
`SERPER_API_KEY` nor a key of the `.env` file is left unchanged. -/
theorem classBody_env_frame (env file : Env) (k : String) (e : Env)
    (hk : k ≠ "SERPER_API_KEY")
    (hfile : getenv file k = none)
    (hok : (classBody env file).result = Except.ok e) :
    getenv e k = getenv env k := by
  have h1 : getenv (load_dotenv env file) k = getenv env k := by
    rw [getenv_load_dotenv]
    cases he : getenv env k <;> simp [hfile, Option.orElse]
  have h2 : getenv (load_dotenv (load_dotenv env file) file) k = getenv env k := by
    rw [getenv_load_dotenv, h1]
    cases he : getenv env k <;> simp [hfile, Option.orElse]
  simp only [classBody, get_value, load_env] at hok
  cases hv : getenv (load_dotenv (load_dotenv env file) file) "SERPER_API_KEY" with
  | none => rw [hv] at hok; cases hok
  | some s =>
    rw [hv] at hok
    have he : e = environSet (load_dotenv (load_dotenv env file) file) "SERPER_API_KEY" s := by
      cases hok; rfl
    rw [he, getenv_environSet_ne _ _ _ _ (Ne.symm hk)]
    exact h2

theorem classBody_env_frame_witness :
    getenv [("HOME", "/root"), ("SERPER_API_KEY", "k1")] "HOME" =
      getenv [("HOME", "/root")] "HOME" :=
  classBody_env_frame [("HOME", "/root")] [("SERPER_API_KEY", "k1")] "HOME"
    [("HOME", "/root"), ("SERPER_API_KEY", "k1")]
    (by decide) rfl rfl

/-- C9: evaluating the class body prints the resolved `SERPER_API_KEY` to
standard output, so stdout depends on the secret: two runs whose process
environments differ only in the secret's value produce different stdout —
noninterference from the secret to stdout fails. -/
theorem stdout_depends_on_secret (rest file : Env) (v1 v2 : String) (h : v1 ≠ v2) :
    (classBody (("SERPER_API_KEY", v1) :: rest) file).stdout
        = ["*****SERPER_API_KEY: " ++ v1] ∧
    (classBody (("SERPER_API_KEY", v1) :: rest) file).stdout ≠
      (classBody (("SERPER_API_KEY", v2) :: rest) file).stdout := by
  have key : ∀ v : String,
      (classBody (("SERPER_API_KEY", v) :: rest) file).stdout
        = ["*****SERPER_API_KEY: " ++ v] := by
    intro v
    simp [classBody, get_value, load_env, getenv_load_dotenv, Option.orElse, pyRepr]
  refine ⟨key v1, ?_⟩
  rw [key v1, key v2]
  intro hEq
  exact h (string_append_left_cancel _ _ _ (List.cons.injEq .. ▸ hEq |>.1))

theorem stdout_depends_on_secret_witness :
    (classBody [("SERPER_API_KEY", "a")] []).stdout = ["*****SERPER_API_KEY: a"] ∧
    (classBody [("SERPER_API_KEY", "a")] []).stdout ≠
      (classBody [("SERPER_API_KEY", "b")] []).stdout :=
  stdout_depends_on_secret [] [] "a" "b" (by decide)

end AgenticContent
